import Mathlib

/-!
Verification development for the tool-result parsing and image-payload
normalization pipeline of a Streamlit chat front-end.

The Python sources are embedded shallowly:

* `nova_canvas_tool.py` : `load_image_as_base64`, `extract_and_encode_image`,
  together with a model of Python's `base64.b64encode` / `base64.b64decode`
  (the latter in its default lenient mode, which discards characters outside
  the alphabet and treats `=` with CPython's legacy padding rules).
* `app.py` : `safe_parse_tool_result` (strict JSON parse, then the
  quote/literal regex rewrite and JSON reparse, then `ast.literal_eval`),
  and the two renderers `display_tool_result` /
  `display_tool_result_realtime`, whose observable effects (`st.success`,
  `st.error`, `st.image`, `st.download_button`, `st.expander`+`st.json`,
  `st.text`, `st.write`, `st.json`) are reified as a list of `DisplayAction`s.

Machine bytes are `Nat`s below 256; the file system and the scratch
directories are explicit association lists; `datetime.now()` timestamps are
an opaque `String` parameter; exception *texts* coming from library
internals (`binascii.Error`, `TypeError`) are abstracted by fixed strings,
while exception *routing* (which `try/except` catches what) follows the
source.  Python float literals, tuple/set literals and non-string dict keys
are outside the model: the embedded parsers fail on them.
-/

/-! ## Base64: model of `base64.b64encode` and lenient `base64.b64decode` -/

/-- The standard base64 alphabet, in value order. -/
def b64Alphabet : List Char :=
  "ABCDEFGHIJKLMNOPQRSTUVWXYZabcdefghijklmnopqrstuvwxyz0123456789+/".data

/-- Linear search for a character's 6-bit value in the alphabet. -/
def b64CharValueAux : List Char → Char → Nat → Option Nat
  | [], _, _ => none
  | a :: rest, c, i => if a = c then some i else b64CharValueAux rest c (i + 1)

/-- The 6-bit value of a base64 alphabet character, `none` for other characters. -/
def b64CharValue (c : Char) : Option Nat :=
  b64CharValueAux b64Alphabet c 0

/-- Whether a character belongs to the base64 alphabet. -/
def isB64Char (c : Char) : Bool :=
  (b64CharValue c).isSome

/-- The alphabet character of a 6-bit value. -/
def b64EncChar (v : Nat) : Char :=
  b64Alphabet.getD v 'A'

/-- Model of `base64.b64encode` on a byte list, producing the character list:
three bytes become four alphabet characters, a two-byte tail becomes three
characters and `=`, a one-byte tail two characters and `==`. -/
def b64encodeChars : List Nat → List Char
  | [] => []
  | [a] => [b64EncChar (a / 4), b64EncChar (a % 4 * 16), '=', '=']
  | [a, b] => [b64EncChar (a / 4), b64EncChar (a % 4 * 16 + b / 16),
               b64EncChar (b % 16 * 4), '=']
  | a :: b :: c :: rest =>
      b64EncChar (a / 4) :: b64EncChar (a % 4 * 16 + b / 16) ::
      b64EncChar (b % 16 * 4 + c / 64) :: b64EncChar (c % 64) :: b64encodeChars rest

/-- Model of `base64.b64encode(...).decode('utf-8')` (the output is ASCII). -/
def b64encode (b : List Nat) : String :=
  String.mk (b64encodeChars b)

/-- Lenient base64 decoding, CPython's `binascii.a2b_base64` legacy mode,
tracking the quad position (0-3), the pending `leftchar` bits and the count
of `=` seen since the last data character: a character outside the alphabet
is skipped (without resetting the pad count), a data character at position
1/2/3 emits one byte, and a `=` at position `p ≥ 2` with `p + pads + 1 ≥ 4`
ends decoding successfully, ignoring the rest; any other `=` is skipped
with the pad count raised.  A non-zero quad position at the end of input is
an error (`Incorrect padding` / `... 1 more than a multiple of 4`), which
discards everything. -/
def b64DecodeAux : List Char → Nat → Nat → Nat → Option (List Nat)
  | [], quadPos, _, _ => if quadPos = 0 then some [] else none
  | c :: rest, quadPos, leftchar, pads =>
    if c = '=' then
      if 2 ≤ quadPos ∧ 4 ≤ quadPos + (pads + 1) then some []
      else b64DecodeAux rest quadPos leftchar (pads + 1)
    else
      match b64CharValue c with
      | none => b64DecodeAux rest quadPos leftchar pads
      | some v =>
        match quadPos with
        | 0 => b64DecodeAux rest 1 v 0
        | 1 => (b64DecodeAux rest 2 (v % 16) 0).map
            (fun out => (leftchar * 4 + v / 16) :: out)
        | 2 => (b64DecodeAux rest 3 (v % 4) 0).map
            (fun out => (leftchar * 16 + v / 4) :: out)
        | _ => (b64DecodeAux rest 0 0 0).map
            (fun out => (leftchar * 64 + v) :: out)

/-- Model of `base64.b64decode` on text: `some bytes` where CPython returns
bytes, `none` where it raises `binascii.Error`. -/
def b64decode (s : String) : Option (List Nat) :=
  b64DecodeAux s.data 0 0 0

/-- Strict well-formedness of base64 text: quads of alphabet characters,
where the final quad may end in `=` or `==` padding.  This is validity in
the canonical sense (what `base64.b64decode(s, validate=True)` accepts with
correct padding), used to express claims about "valid base64 strings". -/
def strictBase64 : List Char → Bool
  | [] => true
  | c1 :: c2 :: c3 :: c4 :: rest =>
      isB64Char c1 && isB64Char c2 &&
      (if rest = [] then
         if c4 = '=' then (if c3 = '=' then true else isB64Char c3)
         else isB64Char c3 && isB64Char c4
       else isB64Char c3 && isB64Char c4 && strictBase64 rest)
  | _ => false

/-! ## Python values

`JVal` models the values that `json.loads` / `ast.literal_eval` can hand to
the renderers: `None`, booleans, integers, strings, lists and string-keyed
dicts.  Floats, tuples, sets and non-string dict keys are outside the model
(the embedded parsers fail on such inputs). -/

inductive JVal where
  | null
  | bool (b : Bool)
  | num (n : Int)
  | str (s : String)
  | arr (elems : List JVal)
  | obj (entries : List (String × JVal))

/-- Dict lookup, last occurrence of the key winning (as when `json.loads`
builds a dict with duplicate keys). -/
def pyLookup (entries : List (String × JVal)) (k : String) : Option JVal :=
  entries.foldl (fun acc p => if p.1 = k then some p.2 else acc) none

/-- Model of `d.get(k, default)`. -/
def pyGetD (entries : List (String × JVal)) (k : String) (d : JVal) : JVal :=
  (pyLookup entries k).getD d

/-- Python truthiness of a value. -/
def pyTruthy : JVal → Bool
  | .null => false
  | .bool b => b
  | .num n => n != 0
  | .str s => s != ""
  | .arr xs => !xs.isEmpty
  | .obj es => !es.isEmpty

/-- Model of the Python test `k in d and d[k]` (key present with truthy value). -/
def keyTruthy (entries : List (String × JVal)) (k : String) : Bool :=
  match pyLookup entries k with
  | some v => pyTruthy v
  | none => false

/-- Model of the Python test `k in d and not d[k]` (key present, falsy value). -/
def keyFalsy (entries : List (String × JVal)) (k : String) : Bool :=
  match pyLookup entries k with
  | some v => !pyTruthy v
  | none => false

/-- Python's type name of a value, as it appears in an `AttributeError`. -/
def pyTypeName : JVal → String
  | .null => "NoneType"
  | .bool _ => "bool"
  | .num _ => "int"
  | .str _ => "str"
  | .arr _ => "list"
  | .obj _ => "dict"

/-- A single-quote character, kept out of source text as a code point. -/
def sqChar : Char := Char.ofNat 39

mutual

/-- Model of Python `repr` for the embedded values (string escaping inside
`repr` is not modelled: the repr of a string is the text between single
quotes). -/
def pyRepr : JVal → String
  | .null => "None"
  | .bool true => "True"
  | .bool false => "False"
  | .num n => toString n
  | .str s => String.mk (sqChar :: s.data ++ [sqChar])
  | .arr xs => "[" ++ pyReprElems xs ++ "]"
  | .obj es =>
      String.mk ([Char.ofNat 123] ++ (pyReprEntries es).data ++ [Char.ofNat 125])

/-- Comma-joined reprs of list elements. -/
def pyReprElems : List JVal → String
  | [] => ""
  | [x] => pyRepr x
  | x :: y :: rest => pyRepr x ++ ", " ++ pyReprElems (y :: rest)

/-- Comma-joined `key: value` reprs of dict entries. -/
def pyReprEntries : List (String × JVal) → String
  | [] => ""
  | [(k, v)] => String.mk (sqChar :: k.data ++ [sqChar]) ++ ": " ++ pyRepr v
  | (k, v) :: e :: rest =>
      String.mk (sqChar :: k.data ++ [sqChar]) ++ ": " ++ pyRepr v ++ ", " ++
      pyReprEntries (e :: rest)

end

/-- Model of Python `str()` as the renderers apply it to banner payloads. -/
def pyStr : JVal → String
  | .str s => s
  | v => pyRepr v

/-! ## String helpers mirroring Python's `str` methods -/

/-- Model of `s.startswith(p)` (anchored, case-sensitive). -/
def pyStartsWith (s pre : String) : Bool :=
  pre.data.isPrefixOf s.data

/-- Model of `s[n:]`. -/
def pyDrop (s : String) (n : Nat) : String :=
  String.mk (s.data.drop n)

/-- The ASCII whitespace stripped by Python's `str.strip()` (unicode spaces
are outside the model). -/
def pyIsSpace (c : Char) : Bool :=
  c.isWhitespace || c == Char.ofNat 11 || c == Char.ofNat 12

/-- Whether a parsed value is a mapping (has the `.get` method used by the
renderers). -/
def pyIsMapping : JVal → Bool
  | .obj _ => true
  | _ => false


/-! ## Stage 1: `json.loads` model

A fuel-indexed recursive-descent parser for strict JSON, restricted to the
value forms in `JVal` (number tokens with a fraction or exponent make the
parse fail: floats are outside the model). -/

/-- JSON inter-token whitespace. -/
def skipWs : List Char → List Char
  | [] => []
  | c :: cs =>
    if c = ' ' ∨ c = '\t' ∨ c = '\n' ∨ c = '\r' then skipWs cs else c :: cs

/-- Hexadecimal digit value. -/
def hexVal (c : Char) : Option Nat :=
  if 48 ≤ c.toNat ∧ c.toNat ≤ 57 then some (c.toNat - 48)
  else if 97 ≤ c.toNat ∧ c.toNat ≤ 102 then some (c.toNat - 87)
  else if 65 ≤ c.toNat ∧ c.toNat ≤ 70 then some (c.toNat - 55)
  else none

/-- JSON single-character escapes. -/
def jsonEscape (e : Char) : Option Char :=
  if e = '\"' then some '\"'
  else if e = '\\' then some '\\'
  else if e = '/' then some '/'
  else if e = 'b' then some (Char.ofNat 8)
  else if e = 'f' then some (Char.ofNat 12)
  else if e = 'n' then some '\n'
  else if e = 'r' then some '\r'
  else if e = 't' then some '\t'
  else none

/-- Body of a JSON string after the opening quote; raw control characters are
rejected (`json.loads` default `strict=True`), `\uXXXX` becomes a single
code point (surrogate pairs are not combined). -/
def parseJStrAux : Nat → List Char → Option (List Char × List Char)
  | 0, _ => none
  | fuel + 1, cs =>
    match cs with
    | [] => none
    | c :: rest =>
      if c = '\"' then some ([], rest)
      else if c = '\\' then
        match rest with
        | [] => none
        | e :: rest2 =>
          if e = 'u' then
            match rest2 with
            | h1 :: h2 :: h3 :: h4 :: rest3 =>
              match hexVal h1, hexVal h2, hexVal h3, hexVal h4 with
              | some a, some b, some c2, some d =>
                (parseJStrAux fuel rest3).map
                  (fun p => (Char.ofNat (((a * 16 + b) * 16 + c2) * 16 + d) :: p.1, p.2))
              | _, _, _, _ => none
            | _ => none
          else
            match jsonEscape e with
            | some ec => (parseJStrAux fuel rest2).map (fun p => (ec :: p.1, p.2))
            | none => none
      else if c.toNat < 32 then none
      else (parseJStrAux fuel rest).map (fun p => (c :: p.1, p.2))

/-- Numeric value of a digit list. -/
def natOfDigits (ds : List Char) : Nat :=
  ds.foldl (fun a c => a * 10 + (c.toNat - 48)) 0

/-- A JSON natural-number token: digits without a leading zero, not followed
by a fraction or exponent marker. -/
def parseJNat (cs : List Char) : Option (Nat × List Char) :=
  let ds := cs.takeWhile Char.isDigit
  let rest := cs.dropWhile Char.isDigit
  match ds with
  | [] => none
  | d :: dtail =>
    if d = '0' ∧ dtail ≠ [] then none
    else
      match rest with
      | e :: _ => if e = '.' ∨ e = 'e' ∨ e = 'E' then none else some (natOfDigits ds, rest)
      | [] => some (natOfDigits ds, [])

/-- A JSON integer token with optional minus sign. -/
def parseJNumber (cs : List Char) : Option (Int × List Char) :=
  match cs with
  | '-' :: rest => (parseJNat rest).map (fun p => (-(p.1 : Int), p.2))
  | _ => (parseJNat cs).map (fun p => ((p.1 : Int), p.2))

mutual

/-- One JSON value, returning the remainder of the input. -/
def parseJVal : Nat → List Char → Option (JVal × List Char)
  | 0, _ => none
  | fuel + 1, cs =>
    match skipWs cs with
    | 'n' :: 'u' :: 'l' :: 'l' :: rest => some (.null, rest)
    | 't' :: 'r' :: 'u' :: 'e' :: rest => some (.bool true, rest)
    | 'f' :: 'a' :: 'l' :: 's' :: 'e' :: rest => some (.bool false, rest)
    | '\"' :: rest =>
        (parseJStrAux (rest.length + 1) rest).map
          (fun p => (.str (String.mk p.1), p.2))
    | '[' :: rest =>
        (match skipWs rest with
         | ']' :: rest2 => some (.arr [], rest2)
         | _ => parseJElems fuel rest [])
    | '{' :: rest =>
        (match skipWs rest with
         | '}' :: rest2 => some (.obj [], rest2)
         | _ => parseJMembers fuel rest [])
    | c :: rest =>
        if c = '-' ∨ c.isDigit then
          (parseJNumber (c :: rest)).map (fun p => (.num p.1, p.2))
        else none
    | [] => none

/-- Comma-separated JSON array elements up to `]`. -/
def parseJElems : Nat → List Char → List JVal → Option (JVal × List Char)
  | 0, _, _ => none
  | fuel + 1, cs, acc =>
    match parseJVal fuel cs with
    | none => none
    | some (v, rest) =>
      match skipWs rest with
      | ',' :: rest2 => parseJElems fuel rest2 (acc ++ [v])
      | ']' :: rest2 => some (.arr (acc ++ [v]), rest2)
      | _ => none

/-- Comma-separated JSON object members up to `}` (keys are strings). -/
def parseJMembers : Nat → List Char → List (String × JVal) →
    Option (JVal × List Char)
  | 0, _, _ => none
  | fuel + 1, cs, acc =>
    match skipWs cs with
    | '\"' :: rest =>
      (match parseJStrAux (rest.length + 1) rest with
       | none => none
       | some (key, rest2) =>
         match skipWs rest2 with
         | ':' :: rest3 =>
           (match parseJVal fuel rest3 with
            | none => none
            | some (v, rest4) =>
              match skipWs rest4 with
              | ',' :: rest5 => parseJMembers fuel rest5 (acc ++ [(String.mk key, v)])
              | '}' :: rest5 => some (.obj (acc ++ [(String.mk key, v)]), rest5)
              | _ => none)
         | _ => none)
    | _ => none

end

/-- Model of `json.loads`: parse one value, demand only whitespace after it;
`none` models a raised `json.JSONDecodeError`. -/
def jsonLoads (s : String) : Option JVal :=
  match parseJVal (2 * s.data.length + 8) s.data with
  | some (v, rest) => if (skipWs rest).isEmpty then some v else none
  | none => none

/-! ## Stage 3: `ast.literal_eval` model

A fuel-indexed parser for Python literal structures restricted to the
`JVal` forms: `None`/`True`/`False`, signed integers, single- or
double-quoted strings, lists with optional trailing comma, and dicts with
string keys.  Tuples, sets, bytes, floats, complex numbers, string-prefix
literals and non-string dict keys make the parse fail (outside the model). -/

/-- Python string-literal escapes (beyond these, Python keeps the backslash
and the character, which the caller models directly). -/
def pyEscape (e : Char) : Option Char :=
  if e = sqChar then some sqChar
  else if e = '\"' then some '\"'
  else if e = '\\' then some '\\'
  else if e = 'n' then some '\n'
  else if e = 'r' then some '\r'
  else if e = 't' then some '\t'
  else if e = 'b' then some (Char.ofNat 8)
  else if e = 'f' then some (Char.ofNat 12)
  else if e = 'a' then some (Char.ofNat 7)
  else if e = 'v' then some (Char.ofNat 11)
  else if e = '0' then some (Char.ofNat 0)
  else none

/-- Body of a Python string literal with quote character `q`; a raw newline
ends the literal with an error, an unknown escape keeps backslash and
character. -/
def parseLStrAux (q : Char) : Nat → List Char → Option (List Char × List Char)
  | 0, _ => none
  | fuel + 1, cs =>
    match cs with
    | [] => none
    | c :: rest =>
      if c = q then some ([], rest)
      else if c = '\\' then
        match rest with
        | [] => none
        | e :: rest2 =>
          if e = 'x' then
            match rest2 with
            | h1 :: h2 :: rest3 =>
              match hexVal h1, hexVal h2 with
              | some a, some b =>
                (parseLStrAux q fuel rest3).map
                  (fun p => (Char.ofNat (a * 16 + b) :: p.1, p.2))
              | _, _ => none
            | _ => none
          else if e = 'u' then
            match rest2 with
            | h1 :: h2 :: h3 :: h4 :: rest3 =>
              match hexVal h1, hexVal h2, hexVal h3, hexVal h4 with
              | some a, some b, some c2, some d =>
                (parseLStrAux q fuel rest3).map
                  (fun p => (Char.ofNat (((a * 16 + b) * 16 + c2) * 16 + d) :: p.1, p.2))
              | _, _, _, _ => none
            | _ => none
          else
            match pyEscape e with
            | some ec => (parseLStrAux q fuel rest2).map (fun p => (ec :: p.1, p.2))
            | none =>
              (parseLStrAux q fuel rest2).map (fun p => ('\\' :: e :: p.1, p.2))
      else if c = '\n' ∨ c = '\r' then none
      else (parseLStrAux q fuel rest).map (fun p => (c :: p.1, p.2))

/-- A Python decimal integer token: all-zero digit runs mean zero, other
leading zeros are illegal, and a following letter, dot or underscore
(float, complex, radix or separator forms) makes the parse fail. -/
def parseLNat (cs : List Char) : Option (Nat × List Char) :=
  let ds := cs.takeWhile Char.isDigit
  let rest := cs.dropWhile Char.isDigit
  match ds with
  | [] => none
  | d :: dtail =>
    let ok : Bool := !(d = '0' ∧ dtail ≠ []) || ds.all (· = '0')
    if ok then
      match rest with
      | e :: _ =>
        if e.isAlpha ∨ e = '.' ∨ e = '_' then none else some (natOfDigits ds, rest)
      | [] => some (natOfDigits ds, [])
    else none

mutual

/-- One Python literal value, returning the remainder of the input. -/
def parseLVal : Nat → List Char → Option (JVal × List Char)
  | 0, _ => none
  | fuel + 1, cs =>
    match skipWs cs with
    | 'N' :: 'o' :: 'n' :: 'e' :: rest => some (.null, rest)
    | 'T' :: 'r' :: 'u' :: 'e' :: rest => some (.bool true, rest)
    | 'F' :: 'a' :: 'l' :: 's' :: 'e' :: rest => some (.bool false, rest)
    | '\"' :: rest =>
        (parseLStrAux '\"' (rest.length + 1) rest).map
          (fun p => (.str (String.mk p.1), p.2))
    | '[' :: rest =>
        (match skipWs rest with
         | ']' :: rest2 => some (.arr [], rest2)
         | _ => parseLElems fuel rest [])
    | '{' :: rest =>
        (match skipWs rest with
         | '}' :: rest2 => some (.obj [], rest2)
         | _ => parseLMembers fuel rest [])
    | '-' :: rest =>
        (parseLNat (skipWs rest)).map (fun p => (.num (-(p.1 : Int)), p.2))
    | '+' :: rest =>
        (parseLNat (skipWs rest)).map (fun p => (.num (p.1 : Int), p.2))
    | c :: rest =>
        if c = sqChar then
          (parseLStrAux sqChar (rest.length + 1) rest).map
            (fun p => (.str (String.mk p.1), p.2))
        else if c.isDigit then
          (parseLNat (c :: rest)).map (fun p => (.num (p.1 : Int), p.2))
        else none
    | [] => none

/-- Comma-separated Python list elements up to `]`, trailing comma allowed. -/
def parseLElems : Nat → List Char → List JVal → Option (JVal × List Char)
  | 0, _, _ => none
  | fuel + 1, cs, acc =>
    match parseLVal fuel cs with
    | none => none
    | some (v, rest) =>
      match skipWs rest with
      | ',' :: rest2 =>
        (match skipWs rest2 with
         | ']' :: rest3 => some (.arr (acc ++ [v]), rest3)
         | _ => parseLElems fuel rest2 (acc ++ [v]))
      | ']' :: rest2 => some (.arr (acc ++ [v]), rest2)
      | _ => none

/-- Comma-separated Python dict members up to `}`, string keys only,
trailing comma allowed. -/
def parseLMembers : Nat → List Char → List (String × JVal) →
    Option (JVal × List Char)
  | 0, _, _ => none
  | fuel + 1, cs, acc =>
    match parseLVal fuel cs with
    | some (.str key, rest) =>
      (match skipWs rest with
       | ':' :: rest2 =>
         (match parseLVal fuel rest2 with
          | none => none
          | some (v, rest3) =>
            match skipWs rest3 with
            | ',' :: rest4 =>
              (match skipWs rest4 with
               | '}' :: rest5 => some (.obj (acc ++ [(key, v)]), rest5)
               | _ => parseLMembers fuel rest4 (acc ++ [(key, v)]))
            | '}' :: rest4 => some (.obj (acc ++ [(key, v)]), rest4)
            | _ => none)
       | _ => none)
    | _ => none

end

/-- Model of `ast.literal_eval` on text: `none` models a raised
`ValueError`/`SyntaxError`. -/
def literal_eval (s : String) : Option JVal :=
  match parseLVal (2 * s.data.length + 8) s.data with
  | some (v, rest) => if (skipWs rest).isEmpty then some v else none
  | none => none

/-! ## Stage 2: the regex rewrites of `safe_parse_tool_result`

`re.sub(r"'([^']*)':", r'"\1":', text)` and `re.sub(r": '([^']*)'", r': "\1"',
...)` are modelled by left-to-right scanners that try a match at each
position, replace and continue after the match, or move one character
forward — exactly the leftmost non-overlapping semantics of `re.sub`.
`re.sub("True", "true", ...)` etc. are plain replace-all operations. -/

/-- Rewrite of single-quoted keys `'k':` to `"k":`. -/
def subKeys : Nat → List Char → List Char
  | 0, cs => cs
  | _ + 1, [] => []
  | fuel + 1, c :: rest =>
    if c = sqChar then
      let content := rest.takeWhile (fun x => !(x == sqChar))
      match rest.dropWhile (fun x => !(x == sqChar)) with
      | _ :: c2 :: rest2 =>
        if c2 = ':' then '\"' :: content ++ '\"' :: ':' :: subKeys fuel rest2
        else c :: subKeys fuel rest
      | _ => c :: subKeys fuel rest
    else c :: subKeys fuel rest

/-- Rewrite of single-quoted values `: 'v'` to `: "v"`. -/
def subVals : Nat → List Char → List Char
  | 0, cs => cs
  | _ + 1, [] => []
  | fuel + 1, c :: rest =>
    if c = ':' then
      match rest with
      | sp :: q :: rest2 =>
        if sp = ' ' ∧ q = sqChar then
          let content := rest2.takeWhile (fun x => !(x == sqChar))
          match rest2.dropWhile (fun x => !(x == sqChar)) with
          | _ :: rest3 => ':' :: ' ' :: '\"' :: content ++ '\"' :: subVals fuel rest3
          | [] => c :: subVals fuel rest
        else c :: subVals fuel rest
      | _ => c :: subVals fuel rest
    else c :: subVals fuel rest

/-- Replace every occurrence of `pat` by `rep`, leftmost, non-overlapping. -/
def replaceAll (pat rep : List Char) : Nat → List Char → List Char
  | 0, cs => cs
  | fuel + 1, cs =>
    if pat.isPrefixOf cs then rep ++ replaceAll pat rep fuel (cs.drop pat.length)
    else
      match cs with
      | [] => []
      | c :: rest => c :: replaceAll pat rep fuel rest

/-- Model of `safe_parse_tool_result` (`app.py`): strict JSON parse, else the
quote rewrites plus `True`/`False`/`None` replacements and a JSON reparse,
else `ast.literal_eval` on the original text, else the plain-text fallback
dict `\x7b"text": text, "is_plain_text": True\x7d`. -/
def safe_parse_tool_result (text : String) : JVal :=
  match jsonLoads text with
  | some v => v
  | none =>
    let t1 := subKeys (text.data.length + 1) text.data
    let t2 := subVals (t1.length + 1) t1
    let t3 := replaceAll "True".data "true".data (t2.length + 1) t2
    let t4 := replaceAll "False".data "false".data (t3.length + 1) t3
    let t5 := replaceAll "None".data "null".data (t4.length + 1) t4
    match jsonLoads (String.mk t5) with
    | some v => v
    | none =>
      match literal_eval text with
      | some v => v
      | none => .obj [("text", .str text), ("is_plain_text", .bool true)]

/-! ## The renderers of `app.py`

Each observable Streamlit effect is one `DisplayAction`.  A branch body that can
raise is given the type `Except (List DisplayAction × String) (List DisplayAction)`: an
`error (pre, msg)` carries the actions already emitted before the raise and
the exception text, so the outer `except Exception` handler can be modelled
exactly (its own banner and `st.text` come after the earlier output).
Exception texts of library internals are abstracted by fixed strings. -/

/-- One observable UI effect. -/
inductive DisplayAction where
  | successBanner (msg : String)
  | errorBanner (msg : String)
  | showImage (data : List Nat) (caption : String)
  | downloadButton (data : List Nat) (filename : String)
  | expanderJson (v : JVal)
  | textOut (v : JVal)
  | writeOut (s : String)
  | jsonOut (v : JVal)

/-- The file system seen by `os.path.exists` and `open(..., 'rb')`. -/
abbrev FS := List (String × List Nat)

/-- Path lookup: `some bytes` when the file exists. -/
def fsLookup (fs : FS) (p : String) : Option (List Nat) :=
  (fs.find? (fun e => e.1 == p)).map (fun e => e.2)

/-- Abstracted text of a `binascii.Error` from `base64.b64decode`. -/
def b64ErrMsg : String := "Invalid base64-encoded string"

/-- Abstracted text of a `TypeError` from passing a non-string where text or
a path is expected. -/
def typeErrMsg : String := "TypeError"

/-- Abstracted text of the `KeyError` from `result_data["text"]`. -/
def keyErrMsg : String := "KeyError"

/-- Abstracted text of the `TypeError` from `enumerate(...)` on a
non-iterable. -/
def enumerateErrMsg : String := "TypeError: object is not iterable"

/-- The optional `st.expander`+`st.json` pair for `parameters`. -/
def paramsExpander (kvs : List (String × JVal)) : List DisplayAction :=
  match pyLookup kvs "parameters" with
  | some pv => [.expanderJson pv]
  | none => []

/-- The multi-image loop shared (textually identical, including captions and
file names) by `display_tool_result` (lines 717-737) and
`display_tool_result_realtime` (lines 522-541): each entry is decoded inside
its own `try`, a failure yields one error banner naming the 1-based position
and the loop continues. -/
def imagesLoop (ts : String) : Nat → List JVal → List DisplayAction
  | _, [] => []
  | i, v :: rest =>
    (match v with
     | .str b =>
       (match b64decode b with
        | some bytes =>
          [.showImage bytes ("Generated by Nova Canvas - Image " ++ toString (i + 1)),
           .downloadButton bytes
             ("nova_canvas_result_" ++ toString (i + 1) ++ "_" ++ ts ++ ".png")]
        | none =>
          [.errorBanner ("画像" ++ toString (i + 1) ++ "表示エラー: " ++ b64ErrMsg)])
     | _ => [.errorBanner ("画像" ++ toString (i + 1) ++ "表示エラー: " ++ typeErrMsg)]) ++
    imagesLoop ts (i + 1) rest

/-- What Python's `enumerate` iterates over: list elements, the characters of
a string (as 1-character strings), the keys of a dict; `none` is the
`TypeError` of a non-iterable. -/
def pyIterVals : JVal → Option (List JVal)
  | .arr xs => some xs
  | .str s => some (s.data.map (fun c => .str (String.mk [c])))
  | .obj es => some (es.map (fun e => .str e.1))
  | _ => none

/-- The `image_file` sub-branch: success banner from `message`, then read the
path (existence-checked), show, offer the download named `stem ++ ts ++
".png"`, and show `parameters`; a missing file becomes an error banner.  A
non-string path value is outside the model (Python `os.path.exists` would
interpret numbers as file descriptors); it is represented by the `try`'s
error-banner arm. -/
def imageFileActions (fs : FS) (ts stem : String) (kvs : List (String × JVal)) :
    List DisplayAction :=
  DisplayAction.successBanner (pyStr (pyGetD kvs "message" (.str "画像生成が完了しました"))) ::
  (match pyGetD kvs "image_file" .null with
   | .str path =>
     (match fsLookup fs path with
      | some bytes =>
        [.showImage bytes "Generated by Nova Canvas",
         .downloadButton bytes (stem ++ ts ++ ".png")] ++ paramsExpander kvs
      | none => [.errorBanner ("画像ファイルが見つかりません: " ++ path)])
   | _ => [.errorBanner ("画像表示エラー: " ++ typeErrMsg)])

/-- The single-image sub-branch of `display_tool_result`: success banner,
decode `image`, show and offer a download, then `parameters`; on a decode
failure the `except` arm shows an error banner and `st.json(result_data)`. -/
def imageActionsHist (ts : String) (kvs : List (String × JVal)) : List DisplayAction :=
  DisplayAction.successBanner (pyStr (pyGetD kvs "message" (.str "画像生成が完了しました"))) ::
  (match pyGetD kvs "image" .null with
   | .str b =>
     (match b64decode b with
      | some bytes =>
        [.showImage bytes "Generated by Nova Canvas",
         .downloadButton bytes ("nova_canvas_result_" ++ ts ++ ".png")] ++
        paramsExpander kvs
      | none => [.errorBanner ("画像表示エラー: " ++ b64ErrMsg), .jsonOut (.obj kvs)])
   | _ => [.errorBanner ("画像表示エラー: " ++ typeErrMsg), .jsonOut (.obj kvs)])

/-- The single-image sub-branch of `display_tool_result_realtime`: as the
history one, but the download is named `virtual_tryout_result_...` and the
`except` arm shows only the error banner. -/
def imageActionsRt (ts : String) (kvs : List (String × JVal)) : List DisplayAction :=
  DisplayAction.successBanner (pyStr (pyGetD kvs "message" (.str "画像生成が完了しました"))) ::
  (match pyGetD kvs "image" .null with
   | .str b =>
     (match b64decode b with
      | some bytes =>
        [.showImage bytes "Generated by Nova Canvas",
         .downloadButton bytes ("virtual_tryout_result_" ++ ts ++ ".png")] ++
        paramsExpander kvs
      | none => [.errorBanner ("画像表示エラー: " ++ b64ErrMsg)])
   | _ => [.errorBanner ("画像表示エラー: " ++ typeErrMsg)])

/-- Branch chain of `display_tool_result` (app.py lines 630-749) on a parsed
mapping.  The chain reproduces the source's `elif` structure exactly: the
`elif`s are chained to the OUTER `if result_data.get("success", False)`
test, so a truthy `success` enters only the `image_file` sub-branch (and
otherwise renders nothing), and the `images` arm, which re-requires a truthy
`success`, is unreachable. -/
def renderMappingHistE (fs : FS) (ts : String) (kvs : List (String × JVal)) :
    Except (List DisplayAction × String) (List DisplayAction) :=
  if pyTruthy (pyGetD kvs "is_plain_text" .null) then
    match pyLookup kvs "text" with
    | some tv => .ok [.textOut tv]
    | none => .error ([], keyErrMsg)
  else if pyTruthy (pyGetD kvs "success" (.bool false)) then
    .ok (if keyTruthy kvs "image_file" then
           imageFileActions fs ts "nova_canvas_result_" kvs
         else [])
  else if keyTruthy kvs "image" then
    .ok (imageActionsHist ts kvs)
  else if keyTruthy kvs "success" && keyTruthy kvs "images" then
    let banner :=
      DisplayAction.successBanner (pyStr (pyGetD kvs "message" (.str "画像生成が完了しました")))
    match pyIterVals (pyGetD kvs "images" .null) with
    | some xs => .ok (banner :: imagesLoop ts 0 xs ++ paramsExpander kvs)
    | none => .error ([banner], enumerateErrMsg)
  else if keyFalsy kvs "success" then
    .ok (DisplayAction.errorBanner
           (pyStr (pyGetD kvs "message" (.str "ツール実行でエラーが発生しました"))) ::
         (match pyLookup kvs "error" with
          | some ev => [.errorBanner ("エラー詳細: " ++ pyStr ev)]
          | none => []))
  else .ok [.jsonOut (.obj kvs)]

/-- Branch chain of `display_tool_result_realtime` (app.py lines 436-550) on
a parsed mapping: same chaining of the `elif`s to the outer `success` test;
its `images` arm does not re-test `success`, and there is no failure arm
(errors were already shown while streaming). -/
def renderMappingRtE (fs : FS) (ts : String) (kvs : List (String × JVal)) :
    Except (List DisplayAction × String) (List DisplayAction) :=
  if pyTruthy (pyGetD kvs "is_plain_text" .null) then
    match pyLookup kvs "text" with
    | some tv => .ok [.textOut tv]
    | none => .error ([], keyErrMsg)
  else if pyTruthy (pyGetD kvs "success" (.bool false)) then
    .ok (if keyTruthy kvs "image_file" then
           imageFileActions fs ts "virtual_tryout_result_" kvs
         else [])
  else if keyTruthy kvs "image" then
    .ok (imageActionsRt ts kvs)
  else if keyTruthy kvs "images" then
    let banner :=
      DisplayAction.successBanner (pyStr (pyGetD kvs "message" (.str "画像生成が完了しました")))
    match pyIterVals (pyGetD kvs "images" .null) with
    | some xs => .ok (banner :: imagesLoop ts 0 xs ++ paramsExpander kvs)
    | none => .error ([banner], enumerateErrMsg)
  else .ok []

/-- Body of the JSON branch of `display_tool_result`: parse, then either run
the mapping chain or raise the `AttributeError` of `.get` on a non-mapping. -/
def displayBodyHistE (fs : FS) (ts : String) (raw : String) :
    Except (List DisplayAction × String) (List DisplayAction) :=
  match safe_parse_tool_result raw with
  | .obj kvs => renderMappingHistE fs ts kvs
  | v => .error ([], "'" ++ pyTypeName v ++ "' object has no attribute 'get'")

/-- Body of the JSON branch of `display_tool_result_realtime`. -/
def displayBodyRtE (fs : FS) (ts : String) (raw : String) :
    Except (List DisplayAction × String) (List DisplayAction) :=
  match safe_parse_tool_result raw with
  | .obj kvs => renderMappingRtE fs ts kvs
  | v => .error ([], "'" ++ pyTypeName v ++ "' object has no attribute 'get'")

/-- The `SUCCESS: ` branch shared by both renderers (only the download file
name stem differs): existence check on the extracted path, then banner,
path line, image and download, or an error banner when the file is absent. -/
def successFileBranch (fs : FS) (ts stem : String) (path : String) : List DisplayAction :=
  match fsLookup fs path with
  | some bytes =>
    [.successBanner "Virtual try-on が正常に実行されました",
     .writeOut ("**生成画像ファイル:** `" ++ path ++ "`"),
     .showImage bytes "Generated by Nova Canvas",
     .downloadButton bytes (stem ++ ts ++ ".png")]
  | none => [.errorBanner ("画像ファイルが見つかりません: " ++ path)]

/-- Model of `display_tool_result` (app.py lines 564-756) on one tool-result
text: the `SUCCESS: ` / `ERROR: ` prefix checks come first (case-sensitive,
anchored), everything else goes through parsing and the mapping chain, whose
exceptions the outer `except Exception` turns into an error banner plus the
raw text. -/
def display_tool_result (fs : FS) (ts : String) (raw : String) : List DisplayAction :=
  if pyStartsWith raw "SUCCESS: " then
    successFileBranch fs ts "virtual_tryout_history_" (pyDrop raw 9)
  else if pyStartsWith raw "ERROR: " then
    [.errorBanner (pyDrop raw 7)]
  else
    match displayBodyHistE fs ts raw with
    | .ok acts => acts
    | .error (pre, e) =>
      pre ++ [.errorBanner ("ツール結果の処理中にエラーが発生しました: " ++ e),
              .textOut (.str raw)]

/-- Model of `display_tool_result_realtime` (app.py lines 370-561) on one
tool-result text. -/
def display_tool_result_realtime (fs : FS) (ts : String) (raw : String) :
    List DisplayAction :=
  if pyStartsWith raw "SUCCESS: " then
    successFileBranch fs ts "virtual_tryout_" (pyDrop raw 9)
  else if pyStartsWith raw "ERROR: " then
    [.errorBanner (pyDrop raw 7)]
  else
    match displayBodyRtE fs ts raw with
    | .ok acts => acts
    | .error (pre, e) =>
      pre ++ [.errorBanner ("ツール結果の処理中にエラーが発生しました: " ++ e),
              .textOut (.str raw)]

/-! ## `nova_canvas_tool.py`: the image payload decoder -/

/-- The union of image input representations accepted by
`load_image_as_base64` / `extract_and_encode_image`: `None`, text, a byte
buffer, or a dict whose values are again such representations. -/
inductive ImgVal where
  | pyNone
  | str (s : String)
  | bytes (b : List Nat)
  | dict (entries : List (String × ImgVal))

/-- Dict lookup for `ImgVal` dicts (first occurrence; the inputs the tool
builds have unique keys). -/
def imgLookup (entries : List (String × ImgVal)) (k : String) : Option ImgVal :=
  (entries.find? (fun p => p.1 == k)).map (fun p => p.2)

/-- Model of `load_image_as_base64` (`nova_canvas_tool.py` lines 214-278):
`ok` is the returned base64 text, `error` a raised `ValueError`'s message
(library exception texts abstracted).  The test `not image_data.strip()` is
modelled as all characters being whitespace. -/
def load_image_as_base64 : ImgVal → Except String String
  | .pyNone => .error "画像データがNoneです"
  | .str s =>
    if s.data.all pyIsSpace then .error "画像データが空です"
    else if pyStartsWith s "data:image/" then
      (if s.data.any (fun c => c == ',') then
         let base64_part := String.mk ((s.data.dropWhile (fun c => !(c == ','))).drop 1)
         match b64decode base64_part with
         | some _ => .ok base64_part
         | none => .error ("無効なBase64データです: " ++ b64ErrMsg)
       else .error "Data URLの形式が正しくありません")
    else
      (match b64decode s with
       | some _ => .ok s
       | none => .error "Base64として解釈できない文字列です")
  | .bytes b =>
    if b.length = 0 then .error "画像データが空です"
    else .ok (b64encode b)
  | .dict _ => .error "サポートされていないデータ型です: dict"

/-- One scratch directory (`/tmp/nova_canvas_*` or the macOS variant): its
path, its modification time, and its files with their contents. -/
structure TempDir where
  path : String
  mtime : Nat
  files : List (String × List Nat)

/-- The scratch directories visible to the two `glob.glob` calls, in the
order the globs return them. -/
abbrev ScratchFS := List TempDir

/-- The head of `temp_dirs` after `sort(key=os.path.getmtime, reverse=True)`:
the stable descending sort puts first the earliest directory having the
maximal mtime. -/
def latestTempDir (d : TempDir) (ds : ScratchFS) : TempDir :=
  ds.foldl (fun best x => if best.mtime < x.mtime then x else best) d

/-- The file resolved for a symbolic reference `s`: in the most recent
scratch directory, the first file matching the glob `s ++ ".*"` (a name
extending `s ++ "."`). -/
def findRefFile (fs : ScratchFS) (s : String) : Option (List Nat) :=
  match fs with
  | [] => none
  | d :: ds =>
    ((latestTempDir d ds).files.find?
      (fun f => pyStartsWith f.1 (s ++ "."))).map (fun f => f.2)

/-- The symbolic-reference branch of `extract_and_encode_image`: encode the
resolved file's bytes, or raise the `ValueError` naming the reference. -/
def resolveImageRef (fs : ScratchFS) (s : String) : Except String String :=
  match findRefFile fs s with
  | some bytes => .ok (b64encode bytes)
  | none =>
    .error ("画像ファイル " ++ s ++ " が見つかりません。一時ディレクトリを確認してください。")

/-- The `bytes` / `data` / unrecognized arms of the dict case of
`extract_and_encode_image`. -/
def extractDictTail (entries : List (String × ImgVal)) : Except String String :=
  match imgLookup entries "bytes" with
  | some sub => load_image_as_base64 sub
  | none =>
    match imgLookup entries "data" with
    | some sub => load_image_as_base64 sub
    | none => .error "辞書形式の画像データの構造が認識できません"

/-- Model of `extract_and_encode_image` (`nova_canvas_tool.py` lines
285-354): a string with the `image_` marker goes only to symbolic-reference
resolution; a dict is probed for `source.bytes`, `bytes`, `data` in that
order, handing the sub-value to `load_image_as_base64`; everything else goes
to `load_image_as_base64` directly.  (A `source` value that is not a dict is
outside the model.) -/
def extract_and_encode_image (fs : ScratchFS) : ImgVal → Except String String
  | .str s =>
    if pyStartsWith s "image_" then resolveImageRef fs s
    else load_image_as_base64 (.str s)
  | .dict entries =>
    (match imgLookup entries "source" with
     | some (.dict src) =>
       (match imgLookup src "bytes" with
        | some sub => load_image_as_base64 sub
        | none => extractDictTail entries)
     | _ => extractDictTail entries)
  | v => load_image_as_base64 v

/-! ## Claim theorems -/

/-! ### Alphabet facts -/

theorem b64CharValue_encChar_fin :
    ∀ v : Fin 64, b64CharValue (b64EncChar v.val) = some v.val := by decide

theorem b64CharValue_encChar {v : Nat} (h : v < 64) :
    b64CharValue (b64EncChar v) = some v :=
  b64CharValue_encChar_fin ⟨v, h⟩

theorem encChar_ne_eq_fin : ∀ v : Fin 64, b64EncChar v.val ≠ '=' := by decide

theorem encChar_ne_eq {v : Nat} (h : v < 64) : b64EncChar v ≠ '=' :=
  encChar_ne_eq_fin ⟨v, h⟩

theorem b64CharValueAux_mem :
    ∀ (l : List Char) (c : Char) (i v : Nat),
      b64CharValueAux l c i = some v → c ∈ l := by
  intro l
  induction l with
  | nil => intro c i v h; simp [b64CharValueAux] at h
  | cons a rest ih =>
    intro c i v h
    by_cases hac : a = c
    · exact hac ▸ List.mem_cons_self a rest
    · simp only [b64CharValueAux, if_neg hac] at h
      exact List.mem_cons_of_mem a (ih c (i + 1) v h)

theorem mem_alphabet_of_isB64Char {c : Char} (h : isB64Char c = true) :
    c ∈ b64Alphabet := by
  unfold isB64Char b64CharValue at h
  cases hv : b64CharValueAux b64Alphabet c 0 with
  | none => rw [hv] at h; simp at h
  | some v => exact b64CharValueAux_mem _ _ _ _ hv

/-! ### Round trip: decoding an encoding recovers the bytes -/

theorem b64DecodeAux_encode :
    ∀ b : List Nat, (∀ x ∈ b, x < 256) →
      b64DecodeAux (b64encodeChars b) 0 0 0 = some b := by
  intro b
  induction b using b64encodeChars.induct with
  | case1 =>
    intro _
    simp [b64encodeChars, b64DecodeAux]
  | case2 a =>
    intro hb
    have ha : a < 256 := hb a (by simp)
    have h1 : a / 4 < 64 := by omega
    have h2 : a % 4 * 16 < 64 := by omega
    have e1 : a / 4 * 4 + a % 4 * 16 / 16 = a := by omega
    simp [b64encodeChars, b64DecodeAux, if_neg (encChar_ne_eq h1),
      b64CharValue_encChar h1, if_neg (encChar_ne_eq h2),
      b64CharValue_encChar h2, e1]
    omega
  | case3 a b =>
    intro hb
    have ha : a < 256 := hb a (by simp)
    have hbb : b < 256 := hb b (by simp)
    have h1 : a / 4 < 64 := by omega
    have h2 : a % 4 * 16 + b / 16 < 64 := by omega
    have h3 : b % 16 * 4 < 64 := by omega
    have e1 : a / 4 * 4 + (a % 4 * 16 + b / 16) / 16 = a := by omega
    have e2 : (a % 4 * 16 + b / 16) % 16 * 16 + b % 16 * 4 / 4 = b := by omega
    simp [b64encodeChars, b64DecodeAux, if_neg (encChar_ne_eq h1),
      b64CharValue_encChar h1, if_neg (encChar_ne_eq h2),
      b64CharValue_encChar h2, if_neg (encChar_ne_eq h3),
      b64CharValue_encChar h3, e1, e2]
    omega
  | case4 a b c rest ih =>
    intro hb
    have ha : a < 256 := hb a (by simp)
    have hbb : b < 256 := hb b (by simp)
    have hc : c < 256 := hb c (by simp)
    have h1 : a / 4 < 64 := by omega
    have h2 : a % 4 * 16 + b / 16 < 64 := by omega
    have h3 : b % 16 * 4 + c / 64 < 64 := by omega
    have h4 : c % 64 < 64 := by omega
    have hrest : ∀ x ∈ rest, x < 256 := by
      intro x hx; exact hb x (by simp [hx])
    have e1 : a / 4 * 4 + (a % 4 * 16 + b / 16) / 16 = a := by omega
    have e2 : (a % 4 * 16 + b / 16) % 16 * 16 + (b % 16 * 4 + c / 64) / 4 = b := by
      omega
    have e3 : (b % 16 * 4 + c / 64) % 4 * 64 + c % 64 = c := by omega
    simp [b64encodeChars, b64DecodeAux, if_neg (encChar_ne_eq h1),
      b64CharValue_encChar h1, if_neg (encChar_ne_eq h2),
      b64CharValue_encChar h2, if_neg (encChar_ne_eq h3),
      b64CharValue_encChar h3, if_neg (encChar_ne_eq h4),
      b64CharValue_encChar h4, ih hrest, e1, e2, e3]

theorem b64decode_encode {b : List Nat} (hb : ∀ x ∈ b, x < 256) :
    b64decode (b64encode b) = some b :=
  b64DecodeAux_encode b hb

/-! ### Strictly valid text decodes -/

theorem ne_pad_of_isB64Char {c : Char} (h : isB64Char c = true) : c ≠ '=' := by
  intro he
  subst he
  have : isB64Char '=' = false := by decide
  rw [this] at h
  exact Bool.false_ne_true h

theorem exists_value_of_isB64Char {c : Char} (h : isB64Char c = true) :
    ∃ v, b64CharValue c = some v := by
  unfold isB64Char at h
  exact Option.isSome_iff_exists.mp h

/-- A strictly valid non-empty base64 text starts with a quad whose first two
characters are alphabet characters; short leftovers are impossible. -/
theorem strictBase64_shape :
    ∀ cs : List Char, strictBase64 cs = true →
      cs = [] ∨ ∃ c1 c2 c3 c4 rest, cs = c1 :: c2 :: c3 :: c4 :: rest ∧
        isB64Char c1 = true ∧ isB64Char c2 = true := by
  intro cs h
  match cs with
  | [] => exact Or.inl rfl
  | [c1] => simp [strictBase64] at h
  | [c1, c2] => simp [strictBase64] at h
  | [c1, c2, c3] => simp [strictBase64] at h
  | c1 :: c2 :: c3 :: c4 :: rest =>
    simp only [strictBase64, Bool.and_eq_true] at h
    exact Or.inr ⟨c1, c2, c3, c4, rest, rfl, h.1.1, h.1.2⟩

theorem strictBase64_decodes :
    ∀ (n : Nat) (cs : List Char), cs.length ≤ n → strictBase64 cs = true →
      ∃ out, b64DecodeAux cs 0 0 0 = some out := by
  intro n
  induction n with
  | zero =>
    intro cs hlen _
    have : cs = [] := List.length_eq_zero.mp (Nat.le_zero.mp hlen)
    subst this
    exact ⟨[], rfl⟩
  | succ n ih =>
    intro cs hlen h
    match cs with
    | [] => exact ⟨[], rfl⟩
    | [c1] => simp [strictBase64] at h
    | [c1, c2] => simp [strictBase64] at h
    | [c1, c2, c3] => simp [strictBase64] at h
    | c1 :: c2 :: c3 :: c4 :: rest =>
      simp only [strictBase64, Bool.and_eq_true] at h
      obtain ⟨⟨h1, h2⟩, htail⟩ := h
      obtain ⟨v1, hv1⟩ := exists_value_of_isB64Char h1
      obtain ⟨v2, hv2⟩ := exists_value_of_isB64Char h2
      by_cases hrest : rest = []
      · subst hrest
        rw [if_pos rfl] at htail
        by_cases hc4 : c4 = '='
        · subst hc4
          rw [if_pos rfl] at htail
          by_cases hc3 : c3 = '='
          · subst hc3
            refine ⟨[v1 * 4 + v2 / 16], ?_⟩
            simp [b64DecodeAux, if_neg (ne_pad_of_isB64Char h1), hv1,
              if_neg (ne_pad_of_isB64Char h2), hv2]
          · rw [if_neg hc3] at htail
            obtain ⟨v3, hv3⟩ := exists_value_of_isB64Char htail
            refine ⟨[v1 * 4 + v2 / 16, v2 % 16 * 16 + v3 / 4], ?_⟩
            simp [b64DecodeAux, if_neg (ne_pad_of_isB64Char h1), hv1,
              if_neg (ne_pad_of_isB64Char h2), hv2,
              if_neg (ne_pad_of_isB64Char htail), hv3]
        · rw [if_neg hc4] at htail
          rw [Bool.and_eq_true] at htail
          obtain ⟨h3, h4⟩ := htail
          obtain ⟨v3, hv3⟩ := exists_value_of_isB64Char h3
          obtain ⟨v4, hv4⟩ := exists_value_of_isB64Char h4
          refine ⟨[v1 * 4 + v2 / 16, v2 % 16 * 16 + v3 / 4, v3 % 4 * 64 + v4], ?_⟩
          simp [b64DecodeAux, if_neg (ne_pad_of_isB64Char h1), hv1,
            if_neg (ne_pad_of_isB64Char h2), hv2,
            if_neg (ne_pad_of_isB64Char h3), hv3,
            if_neg (ne_pad_of_isB64Char h4), hv4]
      · rw [if_neg hrest] at htail
        rw [Bool.and_eq_true, Bool.and_eq_true] at htail
        obtain ⟨⟨h3, h4⟩, hrec⟩ := htail
        obtain ⟨v3, hv3⟩ := exists_value_of_isB64Char h3
        obtain ⟨v4, hv4⟩ := exists_value_of_isB64Char h4
        have hlen' : rest.length ≤ n := by
          simp only [List.length_cons] at hlen
          omega
        obtain ⟨out, hout⟩ := ih rest hlen' hrec
        refine ⟨(v1 * 4 + v2 / 16) :: (v2 % 16 * 16 + v3 / 4) ::
          (v3 % 4 * 64 + v4) :: out, ?_⟩
        simp [b64DecodeAux, if_neg (ne_pad_of_isB64Char h1), hv1,
          if_neg (ne_pad_of_isB64Char h2), hv2,
          if_neg (ne_pad_of_isB64Char h3), hv3,
          if_neg (ne_pad_of_isB64Char h4), hv4, hout]

theorem isPrefixOf_append (l1 l2 : List Char) : l1.isPrefixOf (l1 ++ l2) = true := by
  induction l1 with
  | nil => simp [List.isPrefixOf]
  | cons a rest ih => simp [List.isPrefixOf, ih]

theorem pyStartsWith_append (pre rest : String) :
    pyStartsWith (pre ++ rest) pre = true := by
  unfold pyStartsWith
  rw [String.data_append]
  exact isPrefixOf_append pre.data rest.data

theorem pyDrop_append (pre rest : String) :
    pyDrop (pre ++ rest) pre.data.length = rest := by
  unfold pyDrop
  rw [String.data_append, List.drop_left]

theorem exists_suffix_of_isPrefixOf :
    ∀ l1 l2 : List Char, l1.isPrefixOf l2 = true → ∃ t, l2 = l1 ++ t := by
  intro l1
  induction l1 with
  | nil => intro l2 _; exact ⟨l2, rfl⟩
  | cons a rest ih =>
    intro l2 h
    match l2 with
    | [] => simp [List.isPrefixOf] at h
    | b :: bs =>
      simp only [List.isPrefixOf, Bool.and_eq_true, beq_iff_eq] at h
      obtain ⟨rfl, h2⟩ := h
      obtain ⟨t, rfl⟩ := ih bs h2
      exact ⟨t, rfl⟩


/-- C1: the claim asserts that a mapping with `success` true and an `image`
key is classified as a structured success whose `image_base64` the renderer
surfaces with a success banner, a show-image and a download action.  The
code contradicts this: parsing does yield that mapping, but the `elif
"image" in result_data` arm is chained to the outer `if
result_data.get("success", False)` test instead of being nested inside it,
so a truthy `success` without `image_file` renders NOTHING — both renderers
emit an empty action list on this input. -/
theorem c1_success_image_renders_nothing :
    safe_parse_tool_result "\x7b\"success\": true, \"image\": \"QUJD\"\x7d" =
      .obj [("success", JVal.bool true), ("image", JVal.str "QUJD")] ∧
    display_tool_result [] "" "\x7b\"success\": true, \"image\": \"QUJD\"\x7d" = [] ∧
    display_tool_result_realtime [] "" "\x7b\"success\": true, \"image\": \"QUJD\"\x7d" = [] :=
  ⟨rfl, rfl, rfl⟩

/-- C2 counterexample: the claim says a mapping with `success: false` is
rendered as a failure "regardless of which other keys (such as image or
images) are also present".  On `\x7b"success": false, "image": "QUJD"\x7d` the
code instead renders the single-image SUCCESS path — a success banner, the
image and a download button, and no error banner at all — because the
`elif "image"` arm is reached exactly when `success` is falsy. -/
theorem c2_failure_with_image_counterexample :
    display_tool_result [] "" "\x7b\"success\": false, \"image\": \"QUJD\"\x7d" =
      [.successBanner "画像生成が完了しました",
       .showImage [65, 66, 67] "Generated by Nova Canvas",
       .downloadButton [65, 66, 67] "nova_canvas_result_.png"] := rfl

/-- C2 (amended): for a parsed mapping with a falsy `success` value, no
truthy `image` key (which would divert to the image arm) and no truthy
`is_plain_text`, `display_tool_result` emits an error banner showing
`message` if present, else the generic fallback — the `error` value is
never used as the banner text — and a second detail banner naming the raw
`error` whenever the `error` key is present, even when it equals `message`. -/
theorem c2_structured_failure_rendering
    (fs : FS) (ts raw : String) (kvs : List (String × JVal)) (sv : JVal)
    (hS : pyStartsWith raw "SUCCESS: " = false)
    (hE : pyStartsWith raw "ERROR: " = false)
    (hparse : safe_parse_tool_result raw = .obj kvs)
    (hplain : pyTruthy (pyGetD kvs "is_plain_text" .null) = false)
    (hsv : pyLookup kvs "success" = some sv)
    (hfalse : pyTruthy sv = false)
    (himg : keyTruthy kvs "image" = false) :
    display_tool_result fs ts raw =
      DisplayAction.errorBanner
        (pyStr (pyGetD kvs "message" (.str "ツール実行でエラーが発生しました"))) ::
      (match pyLookup kvs "error" with
       | some ev => [.errorBanner ("エラー詳細: " ++ pyStr ev)]
       | none => []) := by
  have hsucc : pyGetD kvs "success" (.bool false) = sv := by
    rw [pyGetD, hsv]; rfl
  have hkt : keyTruthy kvs "success" = false := by
    rw [keyTruthy, hsv]; exact hfalse
  have hkf : keyFalsy kvs "success" = true := by
    rw [keyFalsy, hsv]
    simp [hfalse]
  simp only [display_tool_result, hS, hE, Bool.false_eq_true, if_false,
    displayBodyHistE, hparse, renderMappingHistE, hplain, hsucc, hfalse, himg,
    hkt, hkf, Bool.false_and, if_true]

/-- C2 witness: on `\x7b"success": false, "error": "boom"\x7d` the banner is the
generic fallback (not "boom") and the detail banner names the raw error. -/
theorem c2_structured_failure_witness :
    display_tool_result [] "" "\x7b\"success\": false, \"error\": \"boom\"\x7d" =
      [.errorBanner "ツール実行でエラーが発生しました",
       .errorBanner "エラー詳細: boom"] := by
  have h := c2_structured_failure_rendering [] ""
    "\x7b\"success\": false, \"error\": \"boom\"\x7d"
    [("success", JVal.bool false), ("error", JVal.str "boom")]
    (JVal.bool false) rfl rfl rfl rfl rfl rfl rfl
  exact h

/-- C3 counterexample: the claim says a bare-scalar structured parse falls
through to a plain-text display action "not an error action".  On the input
`"hello"` (a lone JSON-quoted string) the code's `.get` call raises an
`AttributeError` that the outer handler turns into an error banner followed
by the raw text — there is an error action, and the plain text shown is the
raw quoted form, not the scalar's string form. -/
theorem c3_bare_scalar_counterexample :
    display_tool_result [] "" "\"hello\"" =
      [.errorBanner
         "ツール結果の処理中にエラーが発生しました: 'str' object has no attribute 'get'",
       .textOut (.str "\"hello\"")] ∧
    display_tool_result [] "" "\"hello\"" ≠ [.textOut (.str "hello")] :=
  ⟨rfl, fun h => absurd (congrArg List.length h) (by decide)⟩

/-- C3 (amended): whenever the structured parse of a non-marker text yields
a non-mapping (a bare scalar or a list), `.get` raises an `AttributeError`
inside the renderer; the renderer's own handler catches it and emits an
error banner naming the value's type followed by the raw text verbatim as a
plain-text action — the pipeline does not crash, but it does not produce a
quiet plain-text-only outcome either. -/
theorem c3_bare_scalar_degrades
    (fs : FS) (ts raw : String) (v : JVal)
    (hS : pyStartsWith raw "SUCCESS: " = false)
    (hE : pyStartsWith raw "ERROR: " = false)
    (hparse : safe_parse_tool_result raw = v)
    (hnm : pyIsMapping v = false) :
    display_tool_result fs ts raw =
      [.errorBanner ("ツール結果の処理中にエラーが発生しました: '" ++ pyTypeName v ++
         "' object has no attribute 'get'"),
       .textOut (.str raw)] := by
  simp only [display_tool_result, hS, hE, Bool.false_eq_true, if_false,
    displayBodyHistE, hparse]
  cases v with
  | obj kvs => simp [pyIsMapping] at hnm
  | null => rfl
  | bool b => rfl
  | num n => rfl
  | str s => rfl
  | arr xs => rfl

/-- C3 witness: the bare scalar `42` parses to an `int` and degrades to the
handler's error banner plus the raw text. -/
theorem c3_bare_scalar_witness :
    display_tool_result [] "" "42" =
      [.errorBanner
         "ツール結果の処理中にエラーが発生しました: 'int' object has no attribute 'get'",
       .textOut (.str "42")] := by
  have h := c3_bare_scalar_degrades [] "" "42" (JVal.num 42) rfl rfl rfl rfl
  exact h

/-- C4: for every input text the display pipeline produces a well-defined
list of display actions (the classifier `safe_parse_tool_result` and the
renderers are total functions of the embedding, mirroring the source's
catch-all handlers), and whenever the JSON-branch body raises (modelled by
`displayBodyHistE` returning `error`), a non-marker text is rendered as the
actions emitted before the raise followed by the handler's error banner and
the raw text — the exception never escapes to the caller. -/
theorem c4_never_crashes (fs : FS) (ts raw : String) :
    ∃ acts : List DisplayAction, display_tool_result fs ts raw = acts ∧
      ∀ pre e, pyStartsWith raw "SUCCESS: " = false →
        pyStartsWith raw "ERROR: " = false →
        displayBodyHistE fs ts raw = .error (pre, e) →
        acts = pre ++
          [.errorBanner ("ツール結果の処理中にエラーが発生しました: " ++ e),
           .textOut (.str raw)] := by
  refine ⟨display_tool_result fs ts raw, rfl, ?_⟩
  intro pre e hS hE hbody
  simp only [display_tool_result, hS, hE, Bool.false_eq_true, if_false, hbody]

/-- C4 witness: the list input `[7]` makes the body raise an
`AttributeError`, and the pipeline still terminates in display actions. -/
theorem c4_never_crashes_witness :
    display_tool_result [] "" "[7]" =
      [.errorBanner
         "ツール結果の処理中にエラーが発生しました: 'list' object has no attribute 'get'",
       .textOut (.str "[7]")] := by
  obtain ⟨acts, h1, h2⟩ := c4_never_crashes [] "" "[7]"
  rw [h1]
  exact h2 [] "'list' object has no attribute 'get'" rfl rfl rfl

/-- C5: entries of a multi-image list are processed strictly in order and
independently — rendering a concatenation renders the parts in sequence
with positions shifted, so a failing entry cannot suppress its siblings —
and on the two-element list `["QUJD", "!!!notbase64!!!"]` the realtime
renderer emits exactly one show-image (with its download action) for index
0, captioned by 1-based position, and exactly one error banner scoped to
index 1. -/
theorem c5_images_partial_failure :
    (∀ (ts : String) (i : Nat) (xs ys : List JVal),
       imagesLoop ts i (xs ++ ys) =
         imagesLoop ts i xs ++ imagesLoop ts (i + xs.length) ys) ∧
    display_tool_result_realtime [] "TS"
        "\x7b\"images\": [\"QUJD\", \"!!!notbase64!!!\"]\x7d" =
      [.successBanner "画像生成が完了しました",
       .showImage [65, 66, 67] "Generated by Nova Canvas - Image 1",
       .downloadButton [65, 66, 67] "nova_canvas_result_1_TS.png",
       .errorBanner ("画像2表示エラー: " ++ b64ErrMsg)] := by
  constructor
  · intro ts i xs ys
    induction xs generalizing i with
    | nil => simp [imagesLoop]
    | cons v rest ih =>
      simp only [List.cons_append, imagesLoop, List.append_assoc,
        List.length_cons]
      have hlen : i + (rest.length + 1) = i + 1 + rest.length := by omega
      rw [hlen, show rest.append ys = rest ++ ys from rfl, ih (i + 1)]
  · rfl

/-- C6: the three-stage fallback makes the single-quoted Python-literal
payload classify identically to its strict-JSON form: stage (a) fails on
the single quotes, stage (b)'s rewrite still leaves the quoted list element
single-quoted so the reparse fails too, and stage (c)'s literal evaluation
returns the very mapping that strict JSON gives — with
`images` = `["QUJD"]`. -/
theorem c6_single_quoted_equivalent :
    safe_parse_tool_result "\x7b'success': True, 'images': ['QUJD']\x7d" =
      safe_parse_tool_result "\x7b\"success\": true, \"images\": [\"QUJD\"]\x7d" ∧
    safe_parse_tool_result "\x7b\"success\": true, \"images\": [\"QUJD\"]\x7d" =
      .obj [("success", JVal.bool true), ("images", JVal.arr [JVal.str "QUJD"])] :=
  ⟨rfl, rfl⟩

/-- C7: the case-sensitive anchored marker checks run before any structured
parsing and the first match wins: for every text `"SUCCESS: " ++ rest` the
renderer takes the file-reference branch with path exactly `rest` (whose
definition performs the existence check downstream of extraction), and for
every `"ERROR: " ++ rest` it emits a single error banner with message
exactly `rest`. -/
theorem c7_marker_routing (fs : FS) (ts rest : String) :
    display_tool_result fs ts ("SUCCESS: " ++ rest) =
      successFileBranch fs ts "virtual_tryout_history_" rest ∧
    display_tool_result fs ts ("ERROR: " ++ rest) = [.errorBanner rest] := by
  constructor
  · have hp : pyStartsWith ("SUCCESS: " ++ rest) "SUCCESS: " = true :=
      pyStartsWith_append "SUCCESS: " rest
    have hd : pyDrop ("SUCCESS: " ++ rest) 9 = rest :=
      pyDrop_append "SUCCESS: " rest
    simp only [display_tool_result, hp, if_true, hd]
  · have hns : pyStartsWith ("ERROR: " ++ rest) "SUCCESS: " = false := by
      unfold pyStartsWith
      rw [String.data_append]
      rfl
    have hp : pyStartsWith ("ERROR: " ++ rest) "ERROR: " = true :=
      pyStartsWith_append "ERROR: " rest
    have hd : pyDrop ("ERROR: " ++ rest) 7 = rest :=
      pyDrop_append "ERROR: " rest
    simp only [display_tool_result, hns, Bool.false_eq_true, if_false, hp,
      if_true, hd]

/-- Alphabet characters are not stripped whitespace. -/
theorem b64Alphabet_not_whitespace : ∀ c ∈ b64Alphabet, pyIsSpace c = false := by
  decide

/-- A strictly valid quad followed by a non-empty tail has a strictly valid
tail. -/
theorem strictBase64_rest {c1 c2 c3 c4 : Char} {rest : List Char}
    (h : strictBase64 (c1 :: c2 :: c3 :: c4 :: rest) = true) (hne : rest ≠ []) :
    strictBase64 rest = true := by
  simp only [strictBase64, Bool.and_eq_true] at h
  rcases h with ⟨_, htail⟩
  rw [if_neg hne] at htail
  simp only [Bool.and_eq_true] at htail
  exact htail.2

/-- C8: encoding a non-empty byte buffer through `load_image_as_base64`
returns its base64 text, which decodes back to exactly the bytes
(round-trip), and both the empty byte buffer and the empty string are
rejected with the decoder's `ValueError`. -/
theorem c8_bytes_roundtrip :
    (∀ b : List Nat, b ≠ [] → (∀ x ∈ b, x < 256) →
       load_image_as_base64 (.bytes b) = .ok (b64encode b) ∧
       b64decode (b64encode b) = some b) ∧
    load_image_as_base64 (.bytes []) = .error "画像データが空です" ∧
    load_image_as_base64 (.str "") = .error "画像データが空です" := by
  refine ⟨?_, rfl, rfl⟩
  intro b hne hb
  constructor
  · have hlen : ¬b.length = 0 := fun h => hne (List.length_eq_zero.mp h)
    simp only [load_image_as_base64, hlen, if_false]
  · exact b64decode_encode hb

/-- C8 witness: the PNG-signature bytes round-trip through the decoder. -/
theorem c8_bytes_roundtrip_witness :
    load_image_as_base64 (.bytes [137, 80, 78]) = .ok (b64encode [137, 80, 78]) ∧
    b64decode (b64encode [137, 80, 78]) = some [137, 80, 78] :=
  c8_bytes_roundtrip.1 [137, 80, 78] (by decide) (by decide)

/-- C9: on a non-empty strictly valid base64 text, `load_image_as_base64`
validates and returns the text unchanged (idempotence on canonical input);
such a text can carry neither the `data:image/` marker nor the `image_`
reference marker, so `extract_and_encode_image` reaches the same branch and
also returns it unchanged. -/
theorem c9_decode_idempotent (s : String) (hne : s ≠ "")
    (hval : strictBase64 s.data = true) :
    load_image_as_base64 (.str s) = .ok s ∧
    ∀ fs : ScratchFS, extract_and_encode_image fs (.str s) = .ok s := by
  rcases strictBase64_shape s.data hval with hnil | ⟨c1, c2, c3, c4, rest, hdata, h1, h2⟩
  · exfalso
    apply hne
    cases s with
    | mk data =>
      have hd : data = [] := hnil
      rw [hd]
  · have hws : s.data.all pyIsSpace = false := by
      rw [hdata]
      have hc1 : pyIsSpace c1 = false :=
        b64Alphabet_not_whitespace c1 (mem_alphabet_of_isB64Char h1)
      simp [hc1]
    obtain ⟨out, hout⟩ := strictBase64_decodes s.data.length s.data le_rfl hval
    have hnd : pyStartsWith s "data:image/" = false := by
      by_contra hcon
      rw [Bool.not_eq_false] at hcon
      obtain ⟨t, ht⟩ := exists_suffix_of_isPrefixOf _ _ hcon
      rw [hdata] at ht
      have ht' : c1 :: c2 :: c3 :: c4 :: rest =
          'd' :: 'a' :: 't' :: 'a' :: ':' :: 'i' :: 'm' :: 'a' :: 'g' :: 'e' :: '/' :: t := ht
      simp only [List.cons.injEq] at ht'
      obtain ⟨-, -, -, -, hrest⟩ := ht'
      have hrne : rest ≠ [] := by rw [hrest]; simp
      have hrec : strictBase64 rest = true := strictBase64_rest (hdata ▸ hval) hrne
      rw [hrest] at hrec
      rcases strictBase64_shape _ hrec with habs | ⟨r1, r2, r3, r4, rr, hreq, hr1, -⟩
      · simp at habs
      · have ht2 : (':' :: 'i' :: 'm' :: 'a' :: 'g' :: 'e' :: '/' :: t) =
            r1 :: r2 :: r3 :: r4 :: rr := hreq
        simp only [List.cons.injEq] at ht2
        rw [← ht2.1] at hr1
        exact absurd hr1 (by decide)
    have hload : load_image_as_base64 (.str s) = .ok s := by
      have hdec : b64decode s = some out := hout
      simp only [load_image_as_base64, hws, Bool.false_eq_true, if_false, hnd,
        hdec]
    refine ⟨hload, ?_⟩
    intro fs
    have hni : pyStartsWith s "image_" = false := by
      by_contra hcon
      rw [Bool.not_eq_false] at hcon
      obtain ⟨t, ht⟩ := exists_suffix_of_isPrefixOf _ _ hcon
      rw [hdata] at ht
      have ht' : c1 :: c2 :: c3 :: c4 :: rest =
          'i' :: 'm' :: 'a' :: 'g' :: 'e' :: '_' :: t := ht
      simp only [List.cons.injEq] at ht'
      obtain ⟨-, -, -, -, hrest⟩ := ht'
      have hrne : rest ≠ [] := by rw [hrest]; simp
      have hrec : strictBase64 rest = true := strictBase64_rest (hdata ▸ hval) hrne
      rw [hrest] at hrec
      rcases strictBase64_shape _ hrec with habs | ⟨r1, r2, r3, r4, rr, hreq, -, hr2⟩
      · simp at habs
      · have ht2 : ('e' :: '_' :: t) = r1 :: r2 :: r3 :: r4 :: rr := hreq
        simp only [List.cons.injEq] at ht2
        rw [← ht2.2.1] at hr2
        exact absurd hr2 (by decide)
    simp only [extract_and_encode_image, hni, Bool.false_eq_true, if_false]
    exact hload

/-- C9 witness: `QUJD` is returned unchanged by both entry points. -/
theorem c9_decode_idempotent_witness :
    load_image_as_base64 (.str "QUJD") = .ok "QUJD" ∧
    extract_and_encode_image [] (.str "QUJD") = .ok "QUJD" :=
  ⟨(c9_decode_idempotent "QUJD" (by decide) (by decide)).1,
   (c9_decode_idempotent "QUJD" (by decide) (by decide)).2 []⟩

/-- C10: every string bearing the `image_` marker — whatever its suffix —
is treated exclusively as a symbolic scratch-file reference:
`extract_and_encode_image` delegates to reference resolution (the search
for `<name>.*` in the most-recently-modified `nova_canvas_` scratch
directory), raises the `ValueError` naming the reference when no file
matches, and any success comes from an encoded scratch file — the string
itself is never validated or returned as base64. -/
theorem c10_image_marker_routing (fs : ScratchFS) (s : String)
    (h : pyStartsWith s "image_" = true) :
    extract_and_encode_image fs (.str s) = resolveImageRef fs s ∧
    (findRefFile fs s = none →
       extract_and_encode_image fs (.str s) =
         .error ("画像ファイル " ++ s ++ " が見つかりません。一時ディレクトリを確認してください。")) ∧
    (∀ out, extract_and_encode_image fs (.str s) = .ok out →
       ∃ bytes, findRefFile fs s = some bytes ∧ out = b64encode bytes) := by
  have h1 : extract_and_encode_image fs (.str s) = resolveImageRef fs s := by
    simp only [extract_and_encode_image, h, if_true]
  refine ⟨h1, ?_, ?_⟩
  · intro h2
    rw [h1, resolveImageRef, h2]
  · intro out hout
    rw [h1, resolveImageRef] at hout
    cases hfind : findRefFile fs s with
    | none => rw [hfind] at hout; simp at hout
    | some bytes =>
      rw [hfind] at hout
      refine ⟨bytes, rfl, ?_⟩
      injection hout with he
      exact he.symm

/-- C10 witness: `image_AB` (a non-integer suffix, and URL-safe-base64-shaped
text) still resolves as a reference and, with no scratch directory, raises
the `ValueError` naming it. -/
theorem c10_image_marker_witness :
    extract_and_encode_image [] (.str "image_AB") =
      .error "画像ファイル image_AB が見つかりません。一時ディレクトリを確認してください。" := by
  have h := c10_image_marker_routing [] "image_AB" rfl
  exact h.2.1 rfl
